import Mathlib

/-!
Shallow embedding of the mcp-calendar repository (a TypeScript adapter over
the Google Calendar API) for checking its natural-language specification.

The embedding models:
  - the error taxonomy and `parseGoogleError` from `src/utils/errors.ts`;
  - the credential resolver (`getAuthMode`, `resolveCalendarId`,
    `createOAuth2Client`, `createServiceAccountClient`, `getCalendarClient`)
    from `src/gcalClient.ts`;
  - the operation handlers `createEvent`, `updateEvent`, `deleteEvent`,
    `listEvents` from `src/tools/`;
  - the per-route error-to-HTTP-status mapping from `src/server.ts`.

JavaScript-specific behaviours that the source relies on are modelled
explicitly: string truthiness (`""` is falsy), `||` / `??` / `?:` selection,
and the possible absence of a runtime value behind an `Option`.
-/

namespace MCPCal

/-- Truthiness of a JS string-or-undefined value: `undefined` and `""` are
falsy, every other string is truthy. -/
def jsTruthyStr : Option String → Bool
  | none => false
  | some s => s ≠ ""

/-- JS `a || b` over a string-or-undefined `a` with a string default `b`. -/
def jsOrStr (a : Option String) (b : String) : String :=
  if jsTruthyStr a then a.getD b else b

/-- A JSON-like value, the model of the untyped payloads (`response.data`
and nested provider error bodies) that `parseGoogleError` inspects
structurally. -/
inductive JVal where
  | str (s : String)
  | obj (fields : List (String × JVal))
  | null

/-- Lookup of a field of a JS object by key (first binding wins). -/
def JVal.lookup (key : String) : List (String × JVal) → Option JVal
  | [] => none
  | (k, v) :: rest => if k = key then some v else JVal.lookup key rest

/-- The closed set of error kinds (`ErrorType` in `src/types/index.ts`). -/
inductive ErrorType where
  | auth_error
  | validation_error
  | google_api_error
  | not_found_error
  | unknown_error
deriving DecidableEq, Repr

/-- A value stored in an error's `details` record. `undef` models a detail
field whose source value is `undefined` (for example an absent HTTP status). -/
inductive DVal where
  | str (s : String)
  | int (n : Int)
  | json (j : JVal)
  | undef
  | strs (l : List String)

/-- The `details` record of an error: a JS object of detail fields. -/
abbrev Details := List (String × DVal)

/-- The structured error class `MCPCalendarError` of `src/utils/errors.ts`:
a kind, a human-readable message and an optional details record.
`toMCPError` in the source returns exactly these three fields, so the same
structure serves as the wire-format `MCPError`. -/
structure MCPCalendarError where
  type : ErrorType
  message : String
  details : Option Details

/-- Constructor `createAuthError` of `src/utils/errors.ts`. -/
def createAuthError (message : String) (details : Option Details := none) :
    MCPCalendarError :=
  { type := .auth_error, message := message, details := details }

/-- Constructor `createValidationError` of `src/utils/errors.ts`. -/
def createValidationError (message : String) (details : Option Details := none) :
    MCPCalendarError :=
  { type := .validation_error, message := message, details := details }

/-- Constructor `createGoogleApiError` of `src/utils/errors.ts`. -/
def createGoogleApiError (message : String) (details : Option Details := none) :
    MCPCalendarError :=
  { type := .google_api_error, message := message, details := details }

/-- Constructor `createNotFoundError` of `src/utils/errors.ts`. -/
def createNotFoundError (message : String) (details : Option Details := none) :
    MCPCalendarError :=
  { type := .not_found_error, message := message, details := details }

/-- The `response` object of a Google API error: `response.status` (a number
when present) and `response.data` (a payload when present). -/
structure GResp where
  status : Option Int
  data : Option JVal

/-- The opaque `unknown` value thrown at the provider boundary and fed to
`parseGoogleError`:
  - `mcp e`: an `instanceof MCPCalendarError` value;
  - `obj isError response message strRep`: any other non-null JS object —
    `isError` records whether it is an `instanceof Error`, `response` is its
    `response` field when that field is a non-null object, `message` is its
    `message` field when that field is a string, and `strRep` is its
    `String(·)` rendering;
  - `prim strRep`: a primitive (or null) value with its `String(·)`
    rendering. -/
inductive ErrVal where
  | mcp (e : MCPCalendarError)
  | obj (isError : Bool) (response : Option GResp) (message : Option String)
      (strRep : String)
  | prim (strRep : String)

/-- String(error) of an opaque value; for a normalized error JS renders
`Error.prototype.toString`, modelled as the message prefixed by the class
name as `toString` renders it. -/
def ErrVal.strOf : ErrVal → String
  | .mcp e => "MCPCalendarError: " ++ e.message
  | .obj _ _ _ s => s
  | .prim s => s

/-- Extraction of the provider's nested error message from `response.data`,
as the source computes it: `data?.error && typeof data.error === 'object' ?
(data.error).message as string || 'Error de Google API' : '...'`. The nested
message is used when `data.error` is an object whose `message` field is a
non-empty string (the source annotates the field `as string`); otherwise the
generic fallback is used. -/
def nestedProviderMessage (data : Option JVal) : String :=
  match data with
  | some (JVal.obj fields) =>
    match JVal.lookup "error" fields with
    | some (JVal.obj efields) =>
      match JVal.lookup "message" efields with
      | some (JVal.str m) => if m = "" then "Error de Google API" else m
      | _ => "Error de Google API"
    | _ => "Error de Google API"
  | _ => "Error de Google API"

/-- The detail value for a possibly absent HTTP status. -/
def statusDVal : Option Int → DVal
  | some n => DVal.int n
  | none => DVal.undef

/-- The detail value for a possibly absent response payload. -/
def dataDVal : Option JVal → DVal
  | some j => DVal.json j
  | none => DVal.undef

/-- The function `parseGoogleError` of `src/utils/errors.ts`, normalizing an
opaque failure value into an `MCPCalendarError`, translated branch by branch
from the source. -/
def parseGoogleError (error : ErrVal) : MCPCalendarError :=
  match error with
  | .mcp e => e
  | .obj _ response message strRep =>
    match response with
    | some resp =>
      if resp.status = some 401 ∨ resp.status = some 403 then
        createAuthError
          "Error de autenticación con Google Calendar. Verifica tus credenciales."
          (some [("status", statusDVal resp.status), ("data", dataDVal resp.data)])
      else if resp.status = some 404 then
        createNotFoundError
          "El recurso solicitado no existe en Google Calendar."
          (some [("status", statusDVal resp.status), ("data", dataDVal resp.data)])
      else
        createGoogleApiError (nestedProviderMessage resp.data)
          (some [("status", statusDVal resp.status), ("data", dataDVal resp.data)])
    | none =>
      match message with
      | some m => createGoogleApiError m
      | none =>
        { type := .unknown_error
          message := "Ha ocurrido un error desconocido"
          details := some [("originalError", DVal.str strRep)] }
  | .prim strRep =>
    { type := .unknown_error
      message := "Ha ocurrido un error desconocido"
      details := some [("originalError", DVal.str strRep)] }

/-- The spec's ordered selection rule for error normalization (section 4.2 of
the specification), written rule by rule in the spec's order:
1. already a Normalized Error → unchanged; 2. structured response with
status 401/403 → authentication; 3. status 404 → not-found; 4. any other
structured response → provider error with the nested message when
extractable; 5. a plain string message → provider error with that message;
6. otherwise → unknown error carrying the stringified original value. -/
def specNormalizeRule (error : ErrVal) : MCPCalendarError :=
  match error with
  | .mcp e => e
  | .obj _ (some resp) _ _ =>
    if resp.status = some 401 ∨ resp.status = some 403 then
      createAuthError
        "Error de autenticación con Google Calendar. Verifica tus credenciales."
        (some [("status", statusDVal resp.status), ("data", dataDVal resp.data)])
    else if resp.status = some 404 then
      createNotFoundError
        "El recurso solicitado no existe en Google Calendar."
        (some [("status", statusDVal resp.status), ("data", dataDVal resp.data)])
    else
      createGoogleApiError (nestedProviderMessage resp.data)
        (some [("status", statusDVal resp.status), ("data", dataDVal resp.data)])
  | .obj _ none (some m) _ => createGoogleApiError m
  | e =>
    { type := .unknown_error
      message := "Ha ocurrido un error desconocido"
      details := some [("originalError", DVal.str (ErrVal.strOf e))] }

example :
    parseGoogleError (.obj false (some { status := some 404, data := none }) none "x")
      = createNotFoundError "El recurso solicitado no existe en Google Calendar."
          (some [("status", DVal.int 404), ("data", DVal.undef)]) := rfl

example :
    (parseGoogleError (.prim "boom")).type = ErrorType.unknown_error := rfl

/-! ## Credential resolver (`src/gcalClient.ts`) -/

/-- The configuration surface read by the credential resolver: each field is
the corresponding `process.env` variable (`undefined` when unset). -/
structure EnvConfig where
  GOOGLE_CLIENT_ID : Option String
  GOOGLE_CLIENT_SECRET : Option String
  GOOGLE_REFRESH_TOKEN : Option String
  GOOGLE_REDIRECT_URI : Option String
  GOOGLE_CALENDAR_ID : Option String
  GOOGLE_SERVICE_ACCOUNT_KEY_FILE : Option String
  GOOGLE_SERVICE_ACCOUNT_KEY : Option String

/-- The two authentication modes. -/
inductive AuthMode where
  | oauth2
  | service_account
deriving DecidableEq, Repr

/-- The function `getAuthMode` of `src/gcalClient.ts`: service-account mode
whenever `GOOGLE_SERVICE_ACCOUNT_KEY_FILE` or `GOOGLE_SERVICE_ACCOUNT_KEY`
is set (truthy), OAuth2 mode otherwise. -/
def getAuthMode (env : EnvConfig) : AuthMode :=
  if jsTruthyStr env.GOOGLE_SERVICE_ACCOUNT_KEY_FILE
      || jsTruthyStr env.GOOGLE_SERVICE_ACCOUNT_KEY then
    .service_account
  else
    .oauth2

/-- A complete OAuth2 triple: client id, client secret and refresh token all
present (truthy). -/
def hasOAuth2Triple (env : EnvConfig) : Prop :=
  jsTruthyStr env.GOOGLE_CLIENT_ID = true ∧
  jsTruthyStr env.GOOGLE_CLIENT_SECRET = true ∧
  jsTruthyStr env.GOOGLE_REFRESH_TOKEN = true

/-- The function `resolveCalendarId` of `src/gcalClient.ts`:
`calendarId || defaultCalendarId || 'primary'`, with the module-level
`defaultCalendarId` state passed explicitly. -/
def resolveCalendarId (calendarId : Option String) (defaultCalendarId : String) :
    String :=
  jsOrStr calendarId (jsOrStr (some defaultCalendarId) "primary")

/-- The `message` field of an opaque thrown value, when it is a string. -/
def jsErrMessage : ErrVal → Option String
  | .mcp e => some e.message
  | .obj _ _ m _ => m
  | .prim _ => none

/-- Whether an opaque thrown value is an `instanceof Error`
(`MCPCalendarError` extends `Error`, so it always is). -/
def isJsError : ErrVal → Bool
  | .mcp _ => true
  | .obj isError _ _ _ => isError
  | .prim _ => false

/-- Whether a list starts with the pattern list. -/
def startsWithList : List Char → List Char → Bool
  | [], _ => true
  | _ :: _, [] => false
  | p :: ps, c :: cs => p == c && startsWithList ps cs

/-- Whether `pat` occurs as a contiguous sublist of the list. -/
def infixOfList (pat : List Char) : List Char → Bool
  | [] => startsWithList pat []
  | c :: rest => startsWithList pat (c :: rest) || infixOfList pat rest

/-- JS `s.includes(pat)`: substring containment. -/
def strIncludes (s pat : String) : Bool :=
  infixOfList pat.data s.data

/-- Outcome of the environment call `oauth2Client.getAccessToken()`: either a
response whose `token` field may be absent, or a thrown opaque value. -/
inductive TokenFetchResult where
  | ok (token : Option String)
  | threw (e : ErrVal)

/-- The function `createOAuth2Client` of `src/gcalClient.ts`, with the
outcome of the access-token liveness fetch passed as a parameter. The
returned client handle is abstracted to `Unit`; `.error e` is the value the
function throws.

The source's `catch` re-examines every throw from the `try` block: a value
that is an `instanceof Error` whose message includes `invalid_grant` is
replaced by a specific authentication error, and any other value is rethrown
unchanged. The auth error thrown for a response without a token does not
contain `invalid_grant`, so it passes through the catch unchanged, as
modelled directly here. -/
def createOAuth2Client (env : EnvConfig) (fetch : TokenFetchResult) :
    Except ErrVal Unit :=
  let missingVars : List String :=
    (if jsTruthyStr env.GOOGLE_CLIENT_ID then [] else ["GOOGLE_CLIENT_ID"]) ++
    (if jsTruthyStr env.GOOGLE_CLIENT_SECRET then [] else ["GOOGLE_CLIENT_SECRET"]) ++
    (if jsTruthyStr env.GOOGLE_REFRESH_TOKEN then [] else ["GOOGLE_REFRESH_TOKEN"])
  if missingVars ≠ [] then
    .error (.mcp (createAuthError
      ("Faltan variables de entorno requeridas: " ++ String.intercalate ", " missingVars)
      (some [("missingVars", DVal.strs missingVars)])))
  else
    match fetch with
    | .ok token =>
      if jsTruthyStr token then
        .ok ()
      else
        .error (.mcp (createAuthError "No se pudo obtener el access token"))
    | .threw e =>
      if isJsError e && strIncludes ((jsErrMessage e).getD "") "invalid_grant" then
        .error (.mcp (createAuthError
          "El refresh token es inválido o ha expirado. Genera uno nuevo."
          (some [("originalError", DVal.str ((jsErrMessage e).getD ""))])))
      else
        .error e

/-- The file-system surface used by the service-account path:
`fs.existsSync` and `fs.readFileSync`. -/
structure FileSystem where
  existsSync : String → Bool
  readFileSync : String → String

/-- The function `createServiceAccountClient` of `src/gcalClient.ts`, with
the environment's `JSON.parse` (which throws an opaque `SyntaxError` on
malformed input) and the outcome of `auth.getClient()` passed as parameters.
Neither `JSON.parse` nor `auth.getClient()` is wrapped in a `try` in the
source, so their thrown values propagate unchanged. -/
def createServiceAccountClient (env : EnvConfig) (fs : FileSystem)
    (jsonParse : String → Except ErrVal JVal)
    (getClientRes : Except ErrVal Unit) : Except ErrVal Unit :=
  if jsTruthyStr env.GOOGLE_SERVICE_ACCOUNT_KEY_FILE then
    let keyFilePath := env.GOOGLE_SERVICE_ACCOUNT_KEY_FILE.getD ""
    if fs.existsSync keyFilePath then
      match jsonParse (fs.readFileSync keyFilePath) with
      | .error e => .error e
      | .ok _ => getClientRes
    else
      .error (.mcp (createAuthError
        ("No se encontró el archivo de Service Account: " ++ keyFilePath)
        (some [("keyFilePath", DVal.str keyFilePath)])))
  else if jsTruthyStr env.GOOGLE_SERVICE_ACCOUNT_KEY then
    match jsonParse (env.GOOGLE_SERVICE_ACCOUNT_KEY.getD "") with
    | .error e => .error e
    | .ok _ => getClientRes
  else
    .error (.mcp (createAuthError "No se encontraron credenciales de Service Account"))

/-! ## Interleaving model of `getCalendarClient` (`src/gcalClient.ts`)

The body of `getCalendarClient` is `if (calendarClient) return calendarClient;
... calendarClient = await create...(); return calendarClient;`. Between the
null check of the cache and the assignment there is an `await`, so under
JavaScript's event loop a call is two atomic segments: the synchronous
prologue up to starting the handshake, and the synchronous epilogue after the
handshake resolves (assignment and return). Each concurrent caller is a task;
a schedule is the order in which the event loop runs ready segments. Each
completed handshake yields a fresh handle, numbered by a counter, so
distinct handshakes yield distinct handles. -/

/-- One caller of `getCalendarClient`: its program counter (0 = has not yet
run the cache check, 1 = handshake in flight, 2 = returned) and its returned
handle. -/
structure ResolverTask where
  pc : Nat
  result : Option Nat

/-- The shared module state plus the task pool: the cached client handle, the
number of handshakes executed so far (also the fresh-handle counter), and the
tasks. -/
structure ResolverSys where
  cache : Option Nat
  handshakes : Nat
  tasks : List ResolverTask

/-- Run one atomic segment of task `i`, following the source: a task at pc 0
reads the cache — if populated it returns the cached handle, else it starts
the handshake; a task at pc 1 completes the handshake, assigns the fresh
handle to the cache and returns it; a finished task does nothing. -/
def stepTask (s : ResolverSys) (i : Nat) : ResolverSys :=
  match s.tasks.get? i with
  | none => s
  | some t =>
    match t.pc with
    | 0 =>
      match s.cache with
      | some c => { s with tasks := s.tasks.set i { pc := 2, result := some c } }
      | none => { s with tasks := s.tasks.set i { t with pc := 1 } }
    | 1 =>
      let h := s.handshakes
      { cache := some h
        handshakes := s.handshakes + 1
        tasks := s.tasks.set i { pc := 2, result := some h } }
    | _ => s

/-- Run a schedule: a list of task indices, each entry running one atomic
segment of that task. -/
def runSchedule (s : ResolverSys) : List Nat → ResolverSys
  | [] => s
  | i :: rest => runSchedule (stepTask s i) rest

/-- The initial state for `n` concurrent callers arriving before any
resolution: empty cache, no handshakes, all tasks at their cache check. -/
def initResolver (n : Nat) : ResolverSys :=
  { cache := none, handshakes := 0
    tasks := List.replicate n { pc := 0, result := none } }

example :
    (runSchedule (initResolver 2) [0, 1, 0, 1]).handshakes = 2 := by decide

/-! ## Event representation and operation handlers (`src/tools/`) -/

/-- A Google Calendar event time: `{ dateTime?, date?, timeZone? }`. -/
structure EventDateTime where
  dateTime : Option String
  date : Option String
  timeZone : Option String

/-- An attendee record as sent to and received from the provider. -/
structure Attendee where
  email : String
  responseStatus : Option String
  displayName : Option String

/-- The provider's event resource, restricted to the fields the handlers
read or write; `id` stands for the fields that only the object spread
`...currentEvent` copies. -/
structure GEvent where
  id : Option String
  summary : Option String
  description : Option String
  location : Option String
  start : Option EventDateTime
  end_ : Option EventDateTime
  attendees : Option (List Attendee)

/-- The function `validateRequired` of `src/utils/errors.ts`: fails when the
value is `undefined`, `null` or `''`. -/
def validateRequired (value : Option String) (fieldName : String) :
    Except MCPCalendarError Unit :=
  if value = none ∨ value = some "" then
    .error (createValidationError
      ("El campo '" ++ fieldName ++ "' es requerido")
      (some [("field", DVal.str fieldName)]))
  else
    .ok ()

/-- The function `validateISODate` of `src/utils/errors.ts`. The check
`isNaN(new Date(dateString).getTime())` delegates to the JS runtime's date
parser, abstracted here as the predicate `isValidDate`. -/
def validateISODate (isValidDate : String → Bool) (dateString fieldName : String) :
    Except MCPCalendarError Unit :=
  if isValidDate dateString then
    .ok ()
  else
    .error (createValidationError
      ("El campo '" ++ fieldName ++ "' debe ser una fecha válida en formato ISO 8601")
      (some [("field", DVal.str fieldName), ("value", DVal.str dateString)]))

/-- Parameters of `updateEvent` (`UpdateEventParams` in
`src/types/index.ts`); every updatable field is optional. -/
structure UpdateEventParams where
  eventId : Option String
  calendarId : Option String
  summary : Option String
  description : Option String
  location : Option String
  start : Option String
  end_ : Option String
  timeZone : Option String
  attendees : Option (List String)

/-- The timezone `updateEvent` uses for a supplied start/end:
`params.timeZone || currentEvent.start?.timeZone || 'Europe/Madrid'`. -/
def updateTimeZone (p : UpdateEventParams) (currentEvent : GEvent) : String :=
  jsOrStr p.timeZone
    (jsOrStr (currentEvent.start.bind EventDateTime.timeZone) "Europe/Madrid")

/-- The merged resource `updateEvent` sends back to the provider, translated
from the source's merge expression: the object spread copies the current
resource, `??` keeps a current scalar field unless the caller supplied one,
the `params.start ? ... : currentEvent.start` conditionals rebuild start/end
only when the caller supplied a (truthy) value, and an attendee array —
when present, even empty — replaces the current attendees. -/
def mergeUpdate (p : UpdateEventParams) (currentEvent : GEvent) : GEvent :=
  let timeZone := updateTimeZone p currentEvent
  { id := currentEvent.id
    summary := p.summary.or currentEvent.summary
    description := p.description.or currentEvent.description
    location := p.location.or currentEvent.location
    start :=
      if jsTruthyStr p.start then
        some { dateTime := p.start, date := none, timeZone := some timeZone }
      else
        currentEvent.start
    end_ :=
      if jsTruthyStr p.end_ then
        some { dateTime := p.end_, date := none, timeZone := some timeZone }
      else
        currentEvent.end_
    attendees :=
      match p.attendees with
      | some emails =>
        some (emails.map fun email =>
          { email := email, responseStatus := none, displayName := none })
      | none => currentEvent.attendees }

/-- Parameters of `deleteEvent`. -/
structure DeleteEventParams where
  eventId : Option String
  calendarId : Option String

/-- The success acknowledgment `deleteEvent` returns. -/
structure DeleteResponse where
  success : Bool
  message : String

/-- The structural check `err.response?.status` applied by `deleteEvent` to
the failure of its pre-check read. -/
def respStatusOf : ErrVal → Option Int
  | .obj _ (some r) _ _ => r.status
  | _ => none

/-- What a run of `deleteEvent` produced: its result, whether the provider
delete call was issued, and the `sendUpdates` mode passed to it. -/
structure DeleteOutcome where
  result : Except MCPCalendarError DeleteResponse
  deleteIssued : Bool
  sendUpdates : Option String

/-- The function `deleteEvent` of `src/tools/deleteEvent.ts`, with the
outcomes of the two provider calls (`events.get` pre-check and
`events.delete`) passed as parameters. A pre-check failure whose
`response.status` is 404 becomes an explicit not-found error (rethrown
through the outer catch's `parseGoogleError`, which passes it through
unchanged); any other pre-check failure is normalized; on pre-check success
the delete is issued with `sendUpdates: 'all'`. -/
def deleteEvent (p : DeleteEventParams) (defaultCalendarId : String)
    (getRes : Except ErrVal Unit) (delRes : Except ErrVal Unit) : DeleteOutcome :=
  match validateRequired p.eventId "eventId" with
  | .error e => { result := .error e, deleteIssued := false, sendUpdates := none }
  | .ok _ =>
    let eventId := p.eventId.getD ""
    let calendarId := resolveCalendarId p.calendarId defaultCalendarId
    match getRes with
    | .error getError =>
      if respStatusOf getError = some 404 then
        { result := .error (parseGoogleError (.mcp (createNotFoundError
            ("El evento con id '" ++ eventId ++ "' no existe en el calendario")
            (some [("eventId", DVal.str eventId), ("calendarId", DVal.str calendarId)]))))
          deleteIssued := false
          sendUpdates := none }
      else
        { result := .error (parseGoogleError getError)
          deleteIssued := false
          sendUpdates := none }
    | .ok _ =>
      match delRes with
      | .error delError =>
        { result := .error (parseGoogleError delError)
          deleteIssued := true
          sendUpdates := some "all" }
      | .ok _ =>
        { result := .ok
            { success := true
              message := "Evento '" ++ eventId ++ "' eliminado correctamente" }
          deleteIssued := true
          sendUpdates := some "all" }

/-- Parameters of `createEvent` (`CreateEventParams`); the required fields
are `Option` because a JS caller can omit them at runtime. -/
structure CreateEventParams where
  summary : Option String
  description : Option String
  location : Option String
  start : Option String
  end_ : Option String
  calendarId : Option String
  timeZone : Option String
  attendees : Option (List String)

/-- The fixed default timezone of `createEvent`. -/
def DEFAULT_TIMEZONE : String := "Europe/Madrid"

/-- The event body `createEvent` builds for `events.insert`. -/
structure EventBody where
  summary : Option String
  description : Option String
  location : Option String
  start : EventDateTime
  end_ : EventDateTime
  attendees : Option (List Attendee)

/-- The provider request `createEvent` issues on the validated path. -/
structure CreateRequest where
  calendarId : String
  body : EventBody
  sendUpdates : String

/-- The `sendUpdates` rule shared by create and update:
`params.attendees?.length ? 'all' : 'none'`. -/
def sendUpdatesOf (attendees : Option (List String)) : String :=
  match attendees with
  | some emails => if emails.length ≠ 0 then "all" else "none"
  | none => "none"

/-- The validation and request-building prefix of `createEvent`
(`src/tools/createEvent.ts`), up to the single provider call: the five
validations run in source order, and on success the function yields the
`events.insert` request it issues. An `.error` result is thrown before the
provider call. -/
def createEventRequest (isValidDate : String → Bool) (p : CreateEventParams)
    (defaultCalendarId : String) : Except MCPCalendarError CreateRequest := do
  _ ← validateRequired p.summary "summary"
  _ ← validateRequired p.start "start"
  _ ← validateRequired p.end_ "end"
  _ ← validateISODate isValidDate (p.start.getD "") "start"
  _ ← validateISODate isValidDate (p.end_.getD "") "end"
  let calendarId := resolveCalendarId p.calendarId defaultCalendarId
  let timeZone := jsOrStr p.timeZone DEFAULT_TIMEZONE
  pure
    { calendarId := calendarId
      body :=
        { summary := p.summary
          description := p.description
          location := p.location
          start := { dateTime := p.start, date := none, timeZone := some timeZone }
          end_ := { dateTime := p.end_, date := none, timeZone := some timeZone }
          attendees := p.attendees.map (List.map fun email =>
            { email := email, responseStatus := none, displayName := none }) }
      sendUpdates := sendUpdatesOf p.attendees }

/-- Whether `createEvent` reaches its provider call: only when the
validations succeed. -/
def createEventProviderCalled (isValidDate : String → Bool)
    (p : CreateEventParams) (defaultCalendarId : String) : Bool :=
  match createEventRequest isValidDate p defaultCalendarId with
  | .ok _ => true
  | .error _ => false

/-- Parameters of `listEvents` (`ListEventsParams`). -/
structure ListEventsParams where
  timeMin : Option String
  timeMax : Option String
  maxResults : Option Int
  calendarId : Option String
  q : Option String

/-- The default result cap of `listEvents`. -/
def DEFAULT_MAX_RESULTS : Int := 50

/-- Truthiness of a JS number-or-undefined value: `undefined` and `0` are
falsy. -/
def jsTruthyInt : Option Int → Bool
  | none => false
  | some n => n ≠ 0

/-- JS `a || b` over a number-or-undefined `a` with a number default `b`. -/
def jsOrInt (a : Option Int) (b : Int) : Int :=
  if jsTruthyInt a then a.getD b else b

/-- The provider request `listEvents` issues on the validated path. -/
structure ListRequest where
  calendarId : String
  timeMin : String
  timeMax : String
  maxResults : Int
  singleEvents : Bool
  orderBy : String
  q : Option String

/-- The validation and request-building prefix of `listEvents`
(`src/tools/listEvents.ts`), up to the single provider call; the result cap
is `params.maxResults || DEFAULT_MAX_RESULTS`. -/
def listEventsRequest (isValidDate : String → Bool) (p : ListEventsParams)
    (defaultCalendarId : String) : Except MCPCalendarError ListRequest := do
  _ ← validateRequired p.timeMin "timeMin"
  _ ← validateRequired p.timeMax "timeMax"
  _ ← validateISODate isValidDate (p.timeMin.getD "") "timeMin"
  _ ← validateISODate isValidDate (p.timeMax.getD "") "timeMax"
  pure
    { calendarId := resolveCalendarId p.calendarId defaultCalendarId
      timeMin := p.timeMin.getD ""
      timeMax := p.timeMax.getD ""
      maxResults := jsOrInt p.maxResults DEFAULT_MAX_RESULTS
      singleEvents := true
      orderBy := "startTime"
      q := p.q }

/-! ## REST route error mapping (`src/server.ts`) -/

/-- The status the POST `/api/events` (create) handler gives a normalized
error: `mcpError.type === 'auth_error' ? 401 : 400`. -/
def createRouteStatus (t : ErrorType) : Nat :=
  if t = .auth_error then 401 else 400

/-- The status the GET `/api/events/:eventId` (get) handler gives a
normalized error: 404 for not-found, 401 for authentication, else 400. -/
def getEventRouteStatus (t : ErrorType) : Nat :=
  if t = .not_found_error then 404
  else if t = .auth_error then 401
  else 400

/-- The status the GET `/api/events` (list) handler gives a normalized
error: `mcpError.type === 'auth_error' ? 401 : 400`. -/
def listRouteStatus (t : ErrorType) : Nat :=
  if t = .auth_error then 401 else 400

/-- A route's catch block: an `instanceof MCPCalendarError` value gets the
route's kind-to-status mapping, any other thrown value gets 500. -/
def routeStatusOf (routeMap : ErrorType → Nat) (e : ErrVal) : Nat :=
  match e with
  | .mcp err => routeMap err.type
  | _ => 500

/-- Whether an opaque thrown value is a Normalized Error
(an `instanceof MCPCalendarError`). -/
def isNormalizedError : ErrVal → Bool
  | .mcp _ => true
  | _ => false

/-! ## Claims -/

/-- C1: `parseGoogleError` applies the spec's ordered selection rule — pass
through an already-normalized error unchanged; map a structured response
with status 401/403 to an authentication error carrying status and body,
status 404 to a not-found error, any other structured response to a provider
error with the nested provider message when extractable, a plain string
message to a provider error with that message, and anything else to an
unknown error carrying the stringified original value — and in particular it
is idempotent on normalized errors. -/
theorem parseGoogleError_follows_spec_rule :
    (∀ e : ErrVal, parseGoogleError e = specNormalizeRule e) ∧
    (∀ err : MCPCalendarError, parseGoogleError (.mcp err) = err) := by
  refine ⟨fun e => ?_, fun err => rfl⟩
  cases e with
  | mcp e => rfl
  | obj isError response message strRep =>
    cases response with
    | some resp => rfl
    | none => cases message <;> rfl
  | prim s => rfl

/-- C2: `getAuthMode` chooses service-account mode whenever a service-account
key is configured as a file path or a literal value, OAuth2 mode otherwise;
in particular a configured service-account key wins even when a complete
OAuth2 triple is also present. -/
theorem getAuthMode_service_account_precedence :
    (∀ env : EnvConfig,
      (jsTruthyStr env.GOOGLE_SERVICE_ACCOUNT_KEY_FILE = true ∨
        jsTruthyStr env.GOOGLE_SERVICE_ACCOUNT_KEY = true) →
      getAuthMode env = .service_account) ∧
    (∀ env : EnvConfig,
      jsTruthyStr env.GOOGLE_SERVICE_ACCOUNT_KEY_FILE = false →
      jsTruthyStr env.GOOGLE_SERVICE_ACCOUNT_KEY = false →
      getAuthMode env = .oauth2) ∧
    (∀ env : EnvConfig,
      (jsTruthyStr env.GOOGLE_SERVICE_ACCOUNT_KEY_FILE = true ∨
        jsTruthyStr env.GOOGLE_SERVICE_ACCOUNT_KEY = true) →
      hasOAuth2Triple env →
      getAuthMode env = .service_account) := by
  refine ⟨fun env h => ?_, fun env h1 h2 => ?_, fun env h _ => ?_⟩
  · rcases h with h | h <;> simp [getAuthMode, h]
  · simp [getAuthMode, h1, h2]
  · rcases h with h | h <;> simp [getAuthMode, h]

/-- Witness for C2: with both a service-account key and a complete OAuth2
triple configured, service-account mode is chosen. -/
theorem getAuthMode_service_account_precedence_witness :
    getAuthMode
      { GOOGLE_CLIENT_ID := some "client-id"
        GOOGLE_CLIENT_SECRET := some "client-secret"
        GOOGLE_REFRESH_TOKEN := some "refresh-token"
        GOOGLE_REDIRECT_URI := none
        GOOGLE_CALENDAR_ID := none
        GOOGLE_SERVICE_ACCOUNT_KEY_FILE := none
        GOOGLE_SERVICE_ACCOUNT_KEY := some "jsonkey" }
      = .service_account :=
  getAuthMode_service_account_precedence.2.2 _
    (Or.inr (by decide)) ⟨by decide, by decide, by decide⟩

/-- C5: `resolveCalendarId` returns a non-empty requested id unchanged
whatever the default, returns the cached default when the request is absent
or empty and the default is non-empty, and returns the primary sentinel when
neither is available. -/
theorem resolveCalendarId_resolution_rule :
    (∀ requested defaultCalendarId : String, requested ≠ "" →
      resolveCalendarId (some requested) defaultCalendarId = requested) ∧
    (∀ defaultCalendarId : String, defaultCalendarId ≠ "" →
      resolveCalendarId none defaultCalendarId = defaultCalendarId ∧
      resolveCalendarId (some "") defaultCalendarId = defaultCalendarId) ∧
    resolveCalendarId none "" = "primary" ∧
    resolveCalendarId (some "") "" = "primary" := by
  refine ⟨fun r d hr => ?_, fun d hd => ⟨?_, ?_⟩, rfl, rfl⟩
  · simp [resolveCalendarId, jsOrStr, jsTruthyStr, hr]
  · simp [resolveCalendarId, jsOrStr, jsTruthyStr, hd]
  · simp [resolveCalendarId, jsOrStr, jsTruthyStr, hd]

/-- Witness for C5: a non-empty request overrides a cached default, an
absent request falls back to the cached default. -/
theorem resolveCalendarId_resolution_rule_witness :
    resolveCalendarId (some "team@group.calendar.google.com") "work" =
      "team@group.calendar.google.com" ∧
    resolveCalendarId none "work" = "work" :=
  ⟨resolveCalendarId_resolution_rule.1 _ "work" (by decide),
    (resolveCalendarId_resolution_rule.2.1 "work" (by decide)).1⟩

/-- Helper for C10: any successful `listEvents` request carries the result
cap `params.maxResults || DEFAULT_MAX_RESULTS`. -/
theorem listEventsRequest_ok_maxResults (isValidDate : String → Bool)
    (p : ListEventsParams) (d : String) (r : ListRequest)
    (h : listEventsRequest isValidDate p d = .ok r) :
    r.maxResults = jsOrInt p.maxResults DEFAULT_MAX_RESULTS := by
  unfold listEventsRequest at h
  simp only [bind, Except.bind] at h
  split at h
  · cases h
  · split at h
    · cases h
    · split at h
      · cases h
      · split at h
        · cases h
        · simp only [pure, Except.pure, Except.ok.injEq] at h
          subst h
          rfl

/-- C10: a `listEvents` request supplying `maxResults` as the number 0 builds
the same provider request as one omitting `maxResults`, and that request
carries the default cap of 50. -/
theorem listEvents_zero_cap_is_default :
    ∀ (isValidDate : String → Bool) (p : ListEventsParams)
      (defaultCalendarId : String),
      p.maxResults = some 0 →
      listEventsRequest isValidDate p defaultCalendarId =
        listEventsRequest isValidDate { p with maxResults := none }
          defaultCalendarId ∧
      ∀ r, listEventsRequest isValidDate p defaultCalendarId = .ok r →
        r.maxResults = DEFAULT_MAX_RESULTS := by
  intro isValidDate p d h
  obtain ⟨tmin, tmax, mr, cal, q⟩ := p
  simp only at h
  subst h
  exact ⟨rfl, fun r hr => listEventsRequest_ok_maxResults _ _ _ _ hr⟩

/-- Witness for C10: a concrete request with `maxResults: 0` equals the same
request without `maxResults`, and its cap is 50. -/
theorem listEvents_zero_cap_is_default_witness :
    listEventsRequest (fun _ => true)
      { timeMin := some "2025-01-01T00:00:00Z"
        timeMax := some "2025-01-02T00:00:00Z"
        maxResults := some 0, calendarId := none, q := none } "primary" =
      listEventsRequest (fun _ => true)
        { timeMin := some "2025-01-01T00:00:00Z"
          timeMax := some "2025-01-02T00:00:00Z"
          maxResults := none, calendarId := none, q := none } "primary" :=
  (listEvents_zero_cap_is_default (fun _ => true) _ "primary" rfl).1

/-- C6: `updateEvent` performs a partial merge: an update supplying only
`summary` leaves start, end, location, description and attendees identical
to the pre-update resource; every field omitted by the caller keeps its
current value; and the timezone used for a supplied start/end is the
caller's `timeZone` when given, else the current resource's start timezone. -/
theorem updateEvent_partial_merge :
    ∀ (p : UpdateEventParams) (currentEvent : GEvent),
      (∀ eventId summary,
        mergeUpdate
          { eventId := eventId, calendarId := none, summary := some summary
            description := none, location := none, start := none, end_ := none
            timeZone := none, attendees := none } currentEvent =
          { currentEvent with summary := some summary }) ∧
      (p.summary = none →
        (mergeUpdate p currentEvent).summary = currentEvent.summary) ∧
      (p.description = none →
        (mergeUpdate p currentEvent).description = currentEvent.description) ∧
      (p.location = none →
        (mergeUpdate p currentEvent).location = currentEvent.location) ∧
      (p.start = none →
        (mergeUpdate p currentEvent).start = currentEvent.start) ∧
      (p.end_ = none →
        (mergeUpdate p currentEvent).end_ = currentEvent.end_) ∧
      (p.attendees = none →
        (mergeUpdate p currentEvent).attendees = currentEvent.attendees) ∧
      (mergeUpdate p currentEvent).id = currentEvent.id ∧
      (∀ tz, p.timeZone = some tz → tz ≠ "" →
        updateTimeZone p currentEvent = tz) ∧
      (∀ tz, p.timeZone = none →
        currentEvent.start.bind EventDateTime.timeZone = some tz → tz ≠ "" →
        updateTimeZone p currentEvent = tz) ∧
      (∀ s, p.start = some s → s ≠ "" →
        (mergeUpdate p currentEvent).start =
          some { dateTime := some s, date := none
                 timeZone := some (updateTimeZone p currentEvent) }) ∧
      (∀ s, p.end_ = some s → s ≠ "" →
        (mergeUpdate p currentEvent).end_ =
          some { dateTime := some s, date := none
                 timeZone := some (updateTimeZone p currentEvent) }) := by
  intro p currentEvent
  refine ⟨fun eventId summary => rfl,
    fun h => ?_, fun h => ?_, fun h => ?_, fun h => ?_, fun h => ?_, fun h => ?_,
    rfl,
    fun tz h1 h2 => ?_, fun tz h1 h2 h3 => ?_,
    fun s h1 h2 => ?_, fun s h1 h2 => ?_⟩
  · simp [mergeUpdate, h]
  · simp [mergeUpdate, h]
  · simp [mergeUpdate, h]
  · simp [mergeUpdate, jsTruthyStr, h]
  · simp [mergeUpdate, jsTruthyStr, h]
  · simp [mergeUpdate, h]
  · simp [updateTimeZone, jsOrStr, jsTruthyStr, h1, h2]
  · simp [updateTimeZone, jsOrStr, jsTruthyStr, h1, h2, h3]
  · simp [mergeUpdate, jsTruthyStr, h1, h2]
  · simp [mergeUpdate, jsTruthyStr, h1, h2]

/-- Witness for C6: a summary-only update of a concrete event changes only
the summary, and an omitted start stays identical to the current start. -/
theorem updateEvent_partial_merge_witness :
    mergeUpdate
      { eventId := some "evt-1", calendarId := none, summary := some "New title"
        description := none, location := none, start := none, end_ := none
        timeZone := none, attendees := none }
      { id := some "evt-1", summary := some "Old title"
        description := some "Weekly sync", location := some "Madrid"
        start := some { dateTime := some "2025-01-01T10:00:00+01:00"
                        date := none, timeZone := some "Europe/Madrid" }
        end_ := some { dateTime := some "2025-01-01T11:00:00+01:00"
                       date := none, timeZone := some "Europe/Madrid" }
        attendees := some [{ email := "a@example.com"
                             responseStatus := none, displayName := none }] } =
      { id := some "evt-1", summary := some "New title"
        description := some "Weekly sync", location := some "Madrid"
        start := some { dateTime := some "2025-01-01T10:00:00+01:00"
                        date := none, timeZone := some "Europe/Madrid" }
        end_ := some { dateTime := some "2025-01-01T11:00:00+01:00"
                       date := none, timeZone := some "Europe/Madrid" }
        attendees := some [{ email := "a@example.com"
                             responseStatus := none, displayName := none }] } ∧
    updateTimeZone
      { eventId := some "evt-1", calendarId := none, summary := none
        description := none, location := none, start := some "2025-02-02T09:00:00Z"
        end_ := none, timeZone := some "Europe/Paris", attendees := none }
      { id := none, summary := none, description := none, location := none
        start := none, end_ := none, attendees := none } = "Europe/Paris" :=
  ⟨(updateEvent_partial_merge
      { eventId := none, calendarId := none, summary := none, description := none
        location := none, start := none, end_ := none, timeZone := none
        attendees := none } _).1 (some "evt-1") "New title",
    (updateEvent_partial_merge _ _).2.2.2.2.2.2.2.2.1 "Europe/Paris" rfl (by decide)⟩

/-- C7: `deleteEvent` first performs an existence pre-check read; when that
read fails with status 404 it raises a not-found error whose message and
detail name the requested event id and calendar, and issues no delete call;
when the pre-check succeeds it issues the delete with `sendUpdates: 'all'`
and, when the delete succeeds, returns a success acknowledgment. -/
theorem deleteEvent_precheck_semantics :
    ∀ (p : DeleteEventParams) (defaultCalendarId : String)
      (getRes delRes : Except ErrVal Unit) (eventId : String) (ge : ErrVal),
      p.eventId = some eventId → eventId ≠ "" →
      (getRes = .error ge → respStatusOf ge = some 404 →
        deleteEvent p defaultCalendarId getRes delRes =
          { result := .error (createNotFoundError
              ("El evento con id '" ++ eventId ++ "' no existe en el calendario")
              (some [("eventId", DVal.str eventId),
                ("calendarId",
                  DVal.str (resolveCalendarId p.calendarId defaultCalendarId))]))
            deleteIssued := false
            sendUpdates := none }) ∧
      (getRes = .ok () →
        (deleteEvent p defaultCalendarId getRes delRes).deleteIssued = true ∧
        (deleteEvent p defaultCalendarId getRes delRes).sendUpdates = some "all") ∧
      (getRes = .ok () → delRes = .ok () →
        deleteEvent p defaultCalendarId getRes delRes =
          { result := .ok
              { success := true
                message := "Evento '" ++ eventId ++ "' eliminado correctamente" }
            deleteIssued := true
            sendUpdates := some "all" }) := by
  intro p d getRes delRes eventId ge hid hne
  refine ⟨fun hget h404 => ?_, fun hget => ?_, fun hget hdel => ?_⟩
  · simp [deleteEvent, validateRequired, hid, hne, hget, h404, parseGoogleError]
  · cases delRes <;>
      simp [deleteEvent, validateRequired, hid, hne, hget]
  · simp [deleteEvent, validateRequired, hid, hne, hget, hdel]

/-- Witness for C7: a pre-check failing with status 404 yields the explicit
not-found error naming the event id and calendar, with no delete issued; a
successful pre-check and delete yield the success acknowledgment sent with
`sendUpdates: 'all'`. -/
theorem deleteEvent_precheck_semantics_witness :
    deleteEvent { eventId := some "missing-evt", calendarId := none } "primary"
      (.error (.obj false (some { status := some 404, data := none }) none "err"))
      (.ok ()) =
      { result := .error (createNotFoundError
          "El evento con id 'missing-evt' no existe en el calendario"
          (some [("eventId", DVal.str "missing-evt"),
            ("calendarId", DVal.str "primary")]))
        deleteIssued := false
        sendUpdates := none } ∧
    deleteEvent { eventId := some "evt-2", calendarId := none } "primary"
      (.ok ()) (.ok ()) =
      { result := .ok
          { success := true
            message := "Evento 'evt-2' eliminado correctamente" }
        deleteIssued := true
        sendUpdates := some "all" } :=
  ⟨(deleteEvent_precheck_semantics _ "primary" _ _ "missing-evt"
      (.obj false (some { status := some 404, data := none }) none "err")
      rfl (by decide)).1 rfl rfl,
    (deleteEvent_precheck_semantics _ "primary" _ _ "evt-2"
      (.prim "unused") rfl (by decide)).2.2 rfl rfl⟩

/-- A required string field is missing at runtime: `undefined`, `null` or
`''` (the condition `validateRequired` rejects). -/
def fieldMissing (v : Option String) : Prop :=
  v = none ∨ v = some ""

/-- C9: a create request missing (or supplying empty) `summary`, `start` or
`end` yields, before any provider call, a validation error whose detail
names that exact field — each field independently, in the source's
validation order; and a present `start` (or `end`) that fails the date
parser yields a validation error whose detail carries the field name and the
offending literal value, again before any provider call. -/
theorem createEvent_validation_errors :
    ∀ (isValidDate : String → Bool) (p : CreateEventParams)
      (defaultCalendarId : String),
      (fieldMissing p.summary →
        createEventRequest isValidDate p defaultCalendarId =
          .error (createValidationError "El campo 'summary' es requerido"
            (some [("field", DVal.str "summary")])) ∧
        createEventProviderCalled isValidDate p defaultCalendarId = false) ∧
      (¬ fieldMissing p.summary → fieldMissing p.start →
        createEventRequest isValidDate p defaultCalendarId =
          .error (createValidationError "El campo 'start' es requerido"
            (some [("field", DVal.str "start")])) ∧
        createEventProviderCalled isValidDate p defaultCalendarId = false) ∧
      (¬ fieldMissing p.summary → ¬ fieldMissing p.start →
        fieldMissing p.end_ →
        createEventRequest isValidDate p defaultCalendarId =
          .error (createValidationError "El campo 'end' es requerido"
            (some [("field", DVal.str "end")])) ∧
        createEventProviderCalled isValidDate p defaultCalendarId = false) ∧
      (∀ s, ¬ fieldMissing p.summary → p.start = some s → s ≠ "" →
        ¬ fieldMissing p.end_ → isValidDate s = false →
        createEventRequest isValidDate p defaultCalendarId =
          .error (createValidationError
            "El campo 'start' debe ser una fecha válida en formato ISO 8601"
            (some [("field", DVal.str "start"), ("value", DVal.str s)])) ∧
        createEventProviderCalled isValidDate p defaultCalendarId = false) ∧
      (∀ s t, ¬ fieldMissing p.summary → p.start = some s → s ≠ "" →
        isValidDate s = true → p.end_ = some t → t ≠ "" →
        isValidDate t = false →
        createEventRequest isValidDate p defaultCalendarId =
          .error (createValidationError
            "El campo 'end' debe ser una fecha válida en formato ISO 8601"
            (some [("field", DVal.str "end"), ("value", DVal.str t)])) ∧
        createEventProviderCalled isValidDate p defaultCalendarId = false) := by
  intro isValidDate p d
  have hreq : ∀ (v : Option String) (f : String), ¬ fieldMissing v →
      validateRequired v f = .ok () := by
    intro v f h
    simp only [validateRequired, fieldMissing] at h ⊢
    rw [if_neg h]
  have hreqBad : ∀ (v : Option String) (f : String), fieldMissing v →
      validateRequired v f =
        .error (createValidationError ("El campo '" ++ f ++ "' es requerido")
          (some [("field", DVal.str f)])) := by
    intro v f h
    simp only [validateRequired, fieldMissing] at h ⊢
    rw [if_pos h]
  refine ⟨fun h => ?_, fun h1 h2 => ?_, fun h1 h2 h3 => ?_,
    fun s h1 h2 h3 h4 h5 => ?_, fun s t h1 h2 h3 h4 h5 h6 h7 => ?_⟩
  · constructor <;>
      simp [createEventRequest, createEventProviderCalled, hreqBad _ _ h,
        bind, Except.bind]
  · constructor <;>
      simp [createEventRequest, createEventProviderCalled, hreq _ _ h1,
        hreqBad _ _ h2, bind, Except.bind]
  · constructor <;>
      simp [createEventRequest, createEventProviderCalled, hreq _ _ h1,
        hreq _ _ h2, hreqBad _ _ h3, bind, Except.bind]
  · have hstart : validateRequired (some s) "start" = .ok () :=
      hreq _ _ (by simp [fieldMissing, h3])
    constructor <;>
      simp [createEventRequest, createEventProviderCalled, hreq _ _ h1,
        hstart, hreq _ _ h4, validateISODate, h2, h5, bind, Except.bind]
  · have hstart : validateRequired (some s) "start" = .ok () :=
      hreq _ _ (by simp [fieldMissing, h3])
    have hend : validateRequired (some t) "end" = .ok () :=
      hreq _ _ (by simp [fieldMissing, h6])
    constructor <;>
      simp [createEventRequest, createEventProviderCalled, hreq _ _ h1,
        hstart, hend, validateISODate, h2, h4, h5, h7, bind, Except.bind]

/-- Witness for C9: a request missing `start` gets the validation error
naming `start`; a request whose `start` is the literal `not-a-date` gets the
validation error carrying the field name and that literal; neither reaches
the provider. -/
theorem createEvent_validation_errors_witness :
    (createEventRequest (fun s => s ≠ "not-a-date")
      { summary := some "Meeting", description := none, location := none
        start := none, end_ := some "2025-01-01T11:00:00+01:00"
        calendarId := none, timeZone := none, attendees := none } "primary" =
      .error (createValidationError "El campo 'start' es requerido"
        (some [("field", DVal.str "start")])) ∧
      createEventProviderCalled (fun s => s ≠ "not-a-date")
        { summary := some "Meeting", description := none, location := none
          start := none, end_ := some "2025-01-01T11:00:00+01:00"
          calendarId := none, timeZone := none, attendees := none } "primary"
        = false) ∧
    (createEventRequest (fun s => s ≠ "not-a-date")
      { summary := some "Meeting", description := none, location := none
        start := some "not-a-date", end_ := some "2025-01-01T11:00:00+01:00"
        calendarId := none, timeZone := none, attendees := none } "primary" =
      .error (createValidationError
        "El campo 'start' debe ser una fecha válida en formato ISO 8601"
        (some [("field", DVal.str "start"), ("value", DVal.str "not-a-date")])) ∧
      createEventProviderCalled (fun s => s ≠ "not-a-date")
        { summary := some "Meeting", description := none, location := none
          start := some "not-a-date", end_ := some "2025-01-01T11:00:00+01:00"
          calendarId := none, timeZone := none, attendees := none } "primary"
        = false) :=
  ⟨(createEvent_validation_errors _ _ "primary").2.1 (by simp [fieldMissing])
      (Or.inl rfl),
    (createEvent_validation_errors _ _ "primary").2.2.2.1 "not-a-date"
      (by simp [fieldMissing]) rfl (by decide) (by simp [fieldMissing])
      (by decide)⟩

/-- C3 counterexample: two callers of `getCalendarClient` that both run
their cache check before either resolution completes (schedule
check₀ check₁ finish₀ finish₁) execute two authentication handshakes, not
one, and observe distinct handles (handle 0 and handle 1). -/
theorem getCalendarClient_race_counterexample :
    (runSchedule (initResolver 2) [0, 1, 0, 1]).handshakes = 2 ∧
    ¬ (runSchedule (initResolver 2) [0, 1, 0, 1]).handshakes = 1 ∧
    (runSchedule (initResolver 2) [0, 1, 0, 1]).tasks.map ResolverTask.result =
      [some 0, some 1] := by
  refine ⟨rfl, by decide, rfl⟩

/-- C3 (amended): `getCalendarClient` has no single-flight guard — a caller
whose cache check precedes every completed resolution starts its own
handshake, so N callers racing before the first completion can execute N
handshakes and observe distinct handles (two callers under the race schedule
execute two and get handles 0 and 1); only a caller whose cache check sees a
populated cache performs no handshake and returns the cached handle
unchanged. -/
theorem getCalendarClient_race_amended :
    ((runSchedule (initResolver 2) [0, 1, 0, 1]).handshakes = 2 ∧
      (runSchedule (initResolver 2) [0, 1, 0, 1]).tasks.map ResolverTask.result =
        [some 0, some 1]) ∧
    (∀ (s : ResolverSys) (c : Nat) (i : Nat) (t : ResolverTask),
      s.cache = some c → s.tasks.get? i = some t → t.pc = 0 →
      (stepTask s i).handshakes = s.handshakes ∧
      (stepTask s i).cache = s.cache ∧
      (stepTask s i).tasks = s.tasks.set i { pc := 2, result := some c }) := by
  refine ⟨⟨rfl, rfl⟩, fun s c i t hc ht hpc => ?_⟩
  simp only [List.get?_eq_getElem?] at ht
  simp [stepTask, ht, hpc, hc]

/-- Witness for the amended C3: a single caller checking an already
populated cache performs no handshake and returns the cached handle. -/
theorem getCalendarClient_race_amended_witness :
    (stepTask
      { cache := some 7, handshakes := 1, tasks := [{ pc := 0, result := none }] }
      0).handshakes = 1 ∧
    (stepTask
      { cache := some 7, handshakes := 1, tasks := [{ pc := 0, result := none }] }
      0).cache = some 7 ∧
    (stepTask
      { cache := some 7, handshakes := 1, tasks := [{ pc := 0, result := none }] }
      0).tasks = [{ pc := 2, result := some 7 }] :=
  getCalendarClient_race_amended.2 _ 7 0 { pc := 0, result := none } rfl rfl rfl

/-- C4 counterexample: with a complete OAuth2 configuration, a token-fetch
failure whose message does not indicate `invalid_grant` (here a network
error) escapes `createOAuth2Client` as the original opaque value — not as an
authentication-kind Normalized Error. -/
theorem createOAuth2Client_raw_escape_counterexample :
    createOAuth2Client
      { GOOGLE_CLIENT_ID := some "client-id"
        GOOGLE_CLIENT_SECRET := some "client-secret"
        GOOGLE_REFRESH_TOKEN := some "refresh-token"
        GOOGLE_REDIRECT_URI := none
        GOOGLE_CALENDAR_ID := none
        GOOGLE_SERVICE_ACCOUNT_KEY_FILE := none
        GOOGLE_SERVICE_ACCOUNT_KEY := none }
      (.threw (.obj true none (some "connect ECONNREFUSED 142.250.184.10:443")
        "Error: connect ECONNREFUSED")) =
      .error (.obj true none (some "connect ECONNREFUSED 142.250.184.10:443")
        "Error: connect ECONNREFUSED") ∧
    isNormalizedError
      (.obj true none (some "connect ECONNREFUSED 142.250.184.10:443")
        "Error: connect ECONNREFUSED") = false :=
  ⟨rfl, rfl⟩

/-- Whether a resolver outcome failed with an authentication-kind Normalized
Error. -/
def isAuthMcpError : Except ErrVal Unit → Bool
  | .error (.mcp e) => e.type == .auth_error
  | _ => false

/-- Helper: with an incomplete OAuth2 triple, `createOAuth2Client` fails with
an authentication-kind Normalized Error (the missing-variables error). -/
theorem createOAuth2Client_missing_vars (env : EnvConfig)
    (fetch : TokenFetchResult) (h : ¬ hasOAuth2Triple env) :
    isAuthMcpError (createOAuth2Client env fetch) = true := by
  simp only [hasOAuth2Triple, not_and] at h
  cases ha : jsTruthyStr env.GOOGLE_CLIENT_ID <;>
    cases hb : jsTruthyStr env.GOOGLE_CLIENT_SECRET <;>
    cases hc : jsTruthyStr env.GOOGLE_REFRESH_TOKEN <;>
    first
    | exact absurd hc (h ha hb)
    | simp [createOAuth2Client, isAuthMcpError, createAuthError, ha, hb, hc]

/-- Helper: with a complete OAuth2 triple, `createOAuth2Client` reduces to
the liveness-check logic on the fetch outcome. -/
theorem createOAuth2Client_triple (env : EnvConfig) (fetch : TokenFetchResult)
    (h : hasOAuth2Triple env) :
    createOAuth2Client env fetch =
      match fetch with
      | .ok token =>
        if jsTruthyStr token then
          .ok ()
        else
          .error (.mcp (createAuthError "No se pudo obtener el access token"))
      | .threw e =>
        if isJsError e && strIncludes ((jsErrMessage e).getD "") "invalid_grant" then
          .error (.mcp (createAuthError
            "El refresh token es inválido o ha expirado. Genera uno nuevo."
            (some [("originalError", DVal.str ((jsErrMessage e).getD ""))])))
        else
          .error e := by
  obtain ⟨ha, hb, hc⟩ := h
  cases fetch <;> simp [createOAuth2Client, ha, hb, hc]

/-- C4 (amended): every failure the credential resolver raises itself is an
authentication-kind Normalized Error — missing OAuth2 configuration, an
access-token response without a token, an `invalid_grant` token-fetch
failure (distinguished by its specific message), a missing service-account
key file (named in the error) and absent service-account credentials — but a
token-fetch failure without an `invalid_grant` message and a service-account
key that fails JSON parsing are rethrown unchanged, escaping un-normalized;
no failure is retried (each failure is a single terminal outcome). -/
theorem credentialResolver_failure_normalization :
    ∀ (env : EnvConfig) (fetch : TokenFetchResult) (fs : FileSystem)
      (jsonParse : String → Except ErrVal JVal)
      (getClientRes : Except ErrVal Unit),
      (∀ e, createOAuth2Client env fetch = .error (.mcp e) →
        fetch = .threw (.mcp e) ∨ e.type = .auth_error) ∧
      (∀ ev, createOAuth2Client env fetch = .error ev →
        isNormalizedError ev = false → fetch = .threw ev) ∧
      (∀ ev, hasOAuth2Triple env → fetch = .threw ev → isJsError ev = true →
        strIncludes ((jsErrMessage ev).getD "") "invalid_grant" = true →
        createOAuth2Client env fetch = .error (.mcp (createAuthError
          "El refresh token es inválido o ha expirado. Genera uno nuevo."
          (some [("originalError", DVal.str ((jsErrMessage ev).getD ""))])))) ∧
      (¬ hasOAuth2Triple env →
        isAuthMcpError (createOAuth2Client env fetch) = true) ∧
      (∀ tok, hasOAuth2Triple env → fetch = .ok tok → jsTruthyStr tok = false →
        createOAuth2Client env fetch =
          .error (.mcp (createAuthError "No se pudo obtener el access token"))) ∧
      (∀ path, env.GOOGLE_SERVICE_ACCOUNT_KEY_FILE = some path → path ≠ "" →
        fs.existsSync path = false →
        createServiceAccountClient env fs jsonParse getClientRes =
          .error (.mcp (createAuthError
            ("No se encontró el archivo de Service Account: " ++ path)
            (some [("keyFilePath", DVal.str path)])))) ∧
      (jsTruthyStr env.GOOGLE_SERVICE_ACCOUNT_KEY_FILE = false →
        jsTruthyStr env.GOOGLE_SERVICE_ACCOUNT_KEY = false →
        createServiceAccountClient env fs jsonParse getClientRes =
          .error (.mcp
            (createAuthError "No se encontraron credenciales de Service Account"))) ∧
      (∀ path pe, env.GOOGLE_SERVICE_ACCOUNT_KEY_FILE = some path → path ≠ "" →
        fs.existsSync path = true →
        jsonParse (fs.readFileSync path) = .error pe →
        createServiceAccountClient env fs jsonParse getClientRes = .error pe) := by
  intro env fetch fs jsonParse getClientRes
  refine ⟨fun e h => ?_, fun ev h hn => ?_, fun ev htriple hf hj hg => ?_,
    fun h => createOAuth2Client_missing_vars env fetch h,
    fun tok htriple hf ht => ?_, fun path hp hpne hex => ?_,
    fun h1 h2 => ?_, fun path pe hp hpne hex hparse => ?_⟩
  · by_cases htriple : hasOAuth2Triple env
    · rw [createOAuth2Client_triple env fetch htriple] at h
      cases fetch with
      | ok token =>
        right
        cases htok : jsTruthyStr token <;> simp [htok] at h
        subst h
        rfl
      | threw ev =>
        cases hgrant :
            isJsError ev && strIncludes ((jsErrMessage ev).getD "") "invalid_grant" <;>
          simp [hgrant] at h
        · left
          subst h
          rfl
        · right
          subst h
          rfl
    · right
      have hauth := createOAuth2Client_missing_vars env fetch htriple
      rw [h] at hauth
      simpa [isAuthMcpError] using hauth
  · by_cases htriple : hasOAuth2Triple env
    · rw [createOAuth2Client_triple env fetch htriple] at h
      cases fetch with
      | ok token =>
        cases htok : jsTruthyStr token <;> simp [htok] at h
        subst h
        simp [isNormalizedError] at hn
      | threw ev2 =>
        cases hgrant :
            isJsError ev2 && strIncludes ((jsErrMessage ev2).getD "") "invalid_grant" <;>
          simp [hgrant] at h
        · subst h
          rfl
        · subst h
          simp [isNormalizedError] at hn
    · have hauth := createOAuth2Client_missing_vars env fetch htriple
      rw [h] at hauth
      cases ev with
      | mcp e => simp [isNormalizedError] at hn
      | obj a b c d => simp [isAuthMcpError] at hauth
      | prim s => simp [isAuthMcpError] at hauth
  · obtain ⟨ha, hb, hc⟩ := htriple
    subst hf
    simp [createOAuth2Client, ha, hb, hc, hj, hg]
  · obtain ⟨ha, hb, hc⟩ := htriple
    subst hf
    simp [createOAuth2Client, ha, hb, hc, ht]
  · simp [createServiceAccountClient, jsTruthyStr, hp, hpne, hex]
  · simp [createServiceAccountClient, h1, h2]
  · simp [createServiceAccountClient, jsTruthyStr, hp, hpne, hex, hparse]

/-- Witness for the amended C4: an `invalid_grant` token-fetch failure under
a complete OAuth2 configuration becomes the specific authentication error,
and a missing service-account key file becomes an authentication error
naming the path. -/
theorem credentialResolver_failure_normalization_witness :
    createOAuth2Client
      { GOOGLE_CLIENT_ID := some "client-id"
        GOOGLE_CLIENT_SECRET := some "client-secret"
        GOOGLE_REFRESH_TOKEN := some "refresh-token"
        GOOGLE_REDIRECT_URI := none
        GOOGLE_CALENDAR_ID := none
        GOOGLE_SERVICE_ACCOUNT_KEY_FILE := none
        GOOGLE_SERVICE_ACCOUNT_KEY := none }
      (.threw (.obj true none (some "invalid_grant: Token has been expired")
        "GaxiosError: invalid_grant")) =
      .error (.mcp (createAuthError
        "El refresh token es inválido o ha expirado. Genera uno nuevo."
        (some [("originalError",
          DVal.str "invalid_grant: Token has been expired")]))) ∧
    createServiceAccountClient
      { GOOGLE_CLIENT_ID := none
        GOOGLE_CLIENT_SECRET := none
        GOOGLE_REFRESH_TOKEN := none
        GOOGLE_REDIRECT_URI := none
        GOOGLE_CALENDAR_ID := none
        GOOGLE_SERVICE_ACCOUNT_KEY_FILE := some "/etc/missing-key.json"
        GOOGLE_SERVICE_ACCOUNT_KEY := none }
      { existsSync := fun _ => false, readFileSync := fun _ => "" }
      (fun _ => .ok JVal.null) (.ok ()) =
      .error (.mcp (createAuthError
        "No se encontró el archivo de Service Account: /etc/missing-key.json"
        (some [("keyFilePath", DVal.str "/etc/missing-key.json")]))) :=
  ⟨(credentialResolver_failure_normalization _ _
      { existsSync := fun _ => false, readFileSync := fun _ => "" }
      (fun _ => .ok JVal.null) (.ok ())).2.2.1 _
      ⟨by decide, by decide, by decide⟩ rfl rfl (by decide),
    (credentialResolver_failure_normalization _
      (.ok none) _ (fun _ => .ok JVal.null) (.ok ())).2.2.2.2.2.1
      "/etc/missing-key.json" rfl (by decide) rfl⟩

/-- C8 counterexample: the create route maps a not-found-kind Normalized
Error to HTTP 400, not 404 — the kind-to-status mapping is not uniform
across routes (the list route does the same). -/
theorem route_status_not_uniform_counterexample :
    createRouteStatus ErrorType.not_found_error = 400 ∧
    listRouteStatus ErrorType.not_found_error = 400 ∧
    getEventRouteStatus ErrorType.not_found_error = 404 ∧
    (400 : Nat) ≠ 404 := by
  refine ⟨rfl, rfl, rfl, by decide⟩

/-- C8 (amended): the REST front end maps authentication-kind errors to 401
on every route and validation/provider/unknown kinds to 400 on every route,
but not-found-kind errors map to 404 only on the get-event route — the
create and list routes map them to 400; a normalized error's status is the
route's mapping of its kind, and any non-normalized uncaught value gets
500. -/
theorem route_error_status_mapping :
    createRouteStatus .auth_error = 401 ∧
    createRouteStatus .validation_error = 400 ∧
    createRouteStatus .google_api_error = 400 ∧
    createRouteStatus .not_found_error = 400 ∧
    createRouteStatus .unknown_error = 400 ∧
    listRouteStatus .auth_error = 401 ∧
    listRouteStatus .validation_error = 400 ∧
    listRouteStatus .google_api_error = 400 ∧
    listRouteStatus .not_found_error = 400 ∧
    listRouteStatus .unknown_error = 400 ∧
    getEventRouteStatus .auth_error = 401 ∧
    getEventRouteStatus .validation_error = 400 ∧
    getEventRouteStatus .google_api_error = 400 ∧
    getEventRouteStatus .not_found_error = 404 ∧
    getEventRouteStatus .unknown_error = 400 ∧
    (∀ (routeMap : ErrorType → Nat) (e : MCPCalendarError),
      routeStatusOf routeMap (.mcp e) = routeMap e.type) ∧
    (∀ (routeMap : ErrorType → Nat) (s : String),
      routeStatusOf routeMap (.prim s) = 500) ∧
    (∀ (routeMap : ErrorType → Nat) (isError : Bool) (r : Option GResp)
      (m : Option String) (s : String),
      routeStatusOf routeMap (.obj isError r m s) = 500) := by
  refine ⟨rfl, rfl, rfl, rfl, rfl, rfl, rfl, rfl, rfl, rfl, rfl, rfl, rfl,
    rfl, rfl, fun routeMap e => rfl, fun routeMap s => rfl,
    fun routeMap isError r m s => rfl⟩

end MCPCal
